import Mathlib

/-!
Verification of the value-normalization and drag-to-value logic of the
react-knob-headless repository.

The component under study is `KnobHeadless`
(`src/packages/react-knob-headless/src/KnobHeadless.tsx`) together with the
default visual thumb (`src/apps/docs/src/components/knobs/KnobBaseThumb.tsx`).
Numbers are embedded as rationals (`ℚ`); the JavaScript code computes over
IEEE doubles, so exact identities below are the exact-arithmetic content of
the code's formulas.
-/

namespace RKH

/-- Modelled from the spec: `clamp` is imported from the external package
`@dsp-ts/math` (not part of this repository); the spec describes it as
restricting a value to the interval `[lo, hi]`. -/
def clamp (x lo hi : ℚ) : ℚ := max lo (min hi x)

/-- Modelled from the spec: `clamp01` is imported from the external package
`@dsp-ts/math`; it clamps a value to `[0, 1]`. -/
def clamp01 (x : ℚ) : ℚ := clamp x 0 1

/-- Modelled from the spec: `mapTo01Linear` is imported from the external
package `@dsp-ts/math`; the spec gives the linear formula
`pos01 = (raw - min) / (max - min)`. -/
def mapTo01Linear (x lo hi : ℚ) : ℚ := (x - lo) / (hi - lo)

/-- Modelled from the spec: `mapFrom01Linear` is imported from the external
package `@dsp-ts/math`; it is the inverse of `mapTo01Linear`,
`raw = min + pos01 * (max - min)`. -/
def mapFrom01Linear (x lo hi : ℚ) : ℚ := lo + x * (hi - lo)

/-- Translated from `KnobHeadless.tsx` line 26: `const mapTo01Default = mapTo01Linear`. -/
def mapTo01Default : ℚ → ℚ → ℚ → ℚ := mapTo01Linear

/-- Translated from `KnobHeadless.tsx` line 27: `const mapFrom01Default = mapFrom01Linear`. -/
def mapFrom01Default : ℚ → ℚ → ℚ → ℚ := mapFrom01Linear

/-- The two values of the deprecated `orientation` prop of `KnobHeadless`. -/
inductive Orientation
  | horizontal
  | vertical
deriving DecidableEq

/-- The three values of the `axis` prop of `KnobHeadless`. -/
inductive Axis
  | x
  | y
  | xy
deriving DecidableEq

/-- The two concrete drag-axis locks accepted by the gesture library; the
absent case (`undefined`, no axis lock) is represented as `Option.none` at
use sites. -/
inductive DragAxis
  | x
  | y
deriving DecidableEq

/-- Translated from `KnobHeadless.tsx` line 23: `const axisDefault = 'y'`. -/
def axisDefault : Axis := Axis.y

/-- Translated from `KnobHeadless.tsx` line 24. -/
def includeIntoTabOrderDefault : Bool := false

/-- Translated from `KnobHeadless.tsx` line 25. -/
def disabledDefault : Bool := false

/-- Translated from `KnobHeadless.tsx` lines 104-105:
`(includeIntoTabOrder, disabled) => !disabled && includeIntoTabOrder ? 0 : -1`. -/
def getTabIndex (includeIntoTabOrder disabled : Bool) : Int :=
  if !disabled && includeIntoTabOrder then 0 else -1

/-- Translated from `KnobHeadless.tsx` lines 208-218: the deprecated
`orientation` prop takes precedence; otherwise `'xy'` means no axis lock
(`undefined`) and `'x'`/`'y'` lock the corresponding axis. -/
def getDragAxis (orientation : Option Orientation) (axis : Axis) : Option DragAxis :=
  match orientation with
  | some Orientation.horizontal => some DragAxis.x
  | some Orientation.vertical => some DragAxis.y
  | none =>
    match axis with
    | Axis.xy => none
    | Axis.x => some DragAxis.x
    | Axis.y => some DragAxis.y

/-- Translated from `KnobHeadless.tsx` lines 220-231: the deprecated
`orientation` prop takes precedence; with `axis = 'xy'` the orientation is
ambiguous and reported as `undefined`; otherwise `'x'` maps to `'horizontal'`
and `'y'` to `'vertical'`. -/
def getAriaOrientation (orientation : Option Orientation) (axis : Axis) :
    Option Orientation :=
  match orientation with
  | some o => some o
  | none =>
    match axis with
    | Axis.xy => none
    | Axis.x => some Orientation.horizontal
    | Axis.y => some Orientation.vertical

/-- Modelled from the spec: the gesture library `@use-gesture/react` is an
external dependency; with the `axis` option set it locks movement to that
axis, so only the locked component of the per-frame delta is delivered to the
handler, and with no lock both components are delivered. -/
def lockedDelta (dragAxis : Option DragAxis) (dx dy : ℚ) : ℚ × ℚ :=
  match dragAxis with
  | some DragAxis.x => (dx, 0)
  | some DragAxis.y => (0, dy)
  | none => (dx, dy)

/-- Translated from the `useDrag` handler of `KnobHeadless.tsx` lines 131-147:
`diff01 = 0.0; diff01 += delta[0] * dragSensitivity; diff01 += delta[1] * -dragSensitivity;`
then `value01 = mapTo01(valueRaw, valueMin, valueMax)`,
`newValue01 = clamp01(value01 + diff01)`,
`newValueRaw = clamp(mapFrom01(newValue01, valueMin, valueMax), valueMin, valueMax)`.
The arguments `dx`, `dy` are the per-frame delta delivered by the gesture
library. The handler reports `newValueRaw` through `onValueRawChange`. -/
def dragFrame (mapTo01 mapFrom01 : ℚ → ℚ → ℚ → ℚ)
    (valueMin valueMax dragSensitivity valueRaw dx dy : ℚ) : ℚ :=
  let diff01 := 0 + dx * dragSensitivity + dy * (-dragSensitivity)
  let value01 := mapTo01 valueRaw valueMin valueMax
  let newValue01 := clamp01 (value01 + diff01)
  clamp (mapFrom01 newValue01 valueMin valueMax) valueMin valueMax

/-- Configuration props of `KnobHeadless` that the per-frame logic depends on
(`KnobHeadless.tsx` lines 107-126). -/
structure KnobConfig where
  valueMin : ℚ
  valueMax : ℚ
  dragSensitivity : ℚ
  orientation : Option Orientation
  axis : Axis
  includeIntoTabOrder : Bool
  disabled : Bool
  mapTo01 : ℚ → ℚ → ℚ → ℚ
  mapFrom01 : ℚ → ℚ → ℚ → ℚ

/-- Per-frame value reported to the owner through `onValueRawChange`.
Translated from `KnobHeadless.tsx` lines 130-158: the `useDrag` options pass
`enabled: !disabled`, so when `disabled` holds the gesture binding is inert
and the handler never runs (`none`); otherwise the gesture library delivers
the axis-locked delta to the handler of lines 131-147. -/
def knobReportedValue (cfg : KnobConfig) (valueRaw dx dy : ℚ) : Option ℚ :=
  if cfg.disabled then none
  else
    let d := lockedDelta (getDragAxis cfg.orientation cfg.axis) dx dy
    some (dragFrame cfg.mapTo01 cfg.mapFrom01 cfg.valueMin cfg.valueMax
      cfg.dragSensitivity valueRaw d.1 d.2)

/-- Accessibility-relevant attributes of the rendered element, translated from
the JSX of `KnobHeadless.tsx` lines 161-193. -/
structure KnobRendered where
  ariaValueNow : ℚ
  ariaValueMin : ℚ
  ariaValueMax : ℚ
  ariaOrientation : Option Orientation
  ariaValueText : String
  tabIndex : Int
  ariaDisabled : Bool

/-- Translated from `KnobHeadless.tsx`: `const value = valueRawRoundFn(valueRaw)`
(line 127) feeds `aria-valuenow={value}` (line 165); `aria-valuetext` is
`valueRawDisplayFn(valueRaw)` (line 169), applied to the unrounded raw value;
`tabIndex` is `getTabIndex(includeIntoTabOrder, disabled)` (line 170). -/
def knobRender (cfg : KnobConfig) (valueRawRoundFn : ℚ → ℚ)
    (valueRawDisplayFn : ℚ → String) (valueRaw : ℚ) : KnobRendered :=
  { ariaValueNow := valueRawRoundFn valueRaw
    ariaValueMin := cfg.valueMin
    ariaValueMax := cfg.valueMax
    ariaOrientation := getAriaOrientation cfg.orientation cfg.axis
    ariaValueText := valueRawDisplayFn valueRaw
    tabIndex := getTabIndex cfg.includeIntoTabOrder cfg.disabled
    ariaDisabled := cfg.disabled }

/-- Combined per-frame observable behaviour of the component: what it renders
and what it reports to the owner on a drag frame. -/
structure KnobFrameOutput where
  rendered : KnobRendered
  reported : Option ℚ

/-- The whole component for one frame, combining `knobRender` and
`knobReportedValue` as `KnobHeadless.tsx` does. -/
def knobHeadless (cfg : KnobConfig) (valueRawRoundFn : ℚ → ℚ)
    (valueRawDisplayFn : ℚ → String) (valueRaw dx dy : ℚ) : KnobFrameOutput :=
  { rendered := knobRender cfg valueRawRoundFn valueRawDisplayFn valueRaw
    reported := knobReportedValue cfg valueRaw dx dy }

/-- Statement-side definition following the spec's words for the per-frame
delta contribution: `diff01 = dx * sensitivity - dy * sensitivity`, restricted
to the configured axis (`x` only, `y` only, or both summed), with the vertical
component inverted. Used to compare the source-derived handler against the
spec formula. -/
def specDiff01 (dragAxis : Option DragAxis) (dragSensitivity dx dy : ℚ) : ℚ :=
  match dragAxis with
  | some DragAxis.x => dx * dragSensitivity
  | some DragAxis.y => -(dy * dragSensitivity)
  | none => dx * dragSensitivity - dy * dragSensitivity

/-- Statement-side definition following the spec's words for the reported
value: `clamp(mapFrom01(clamp01(mapTo01(r, min, max) + diff01), min, max), min, max)`. -/
def specReportedValue (cfg : KnobConfig) (valueRaw dx dy : ℚ) : ℚ :=
  clamp
    (cfg.mapFrom01
      (clamp01 (cfg.mapTo01 valueRaw cfg.valueMin cfg.valueMax +
        specDiff01 (getDragAxis cfg.orientation cfg.axis) cfg.dragSensitivity dx dy))
      cfg.valueMin cfg.valueMax)
    cfg.valueMin cfg.valueMax

/-- Modelled from the spec: the class `NormalisableRange` is constructed in
`KnobDisabled.tsx` (line 292 of the concatenated source) but its definition,
`apps/docs/src/utils/math/NormalisableRange.ts`, is not under `src/`. The spec
describes it as two independent linear segments,
`[min, center] -> [0, 0.5]` and `[center, max] -> [0.5, 1]`. -/
structure NormalisableRange where
  rmin : ℚ
  rmax : ℚ
  center : ℚ

/-- Modelled from the spec: piecewise-linear normalizer of `NormalisableRange`,
mapping `[rmin, center]` linearly onto `[0, 1/2]` and `[center, rmax]` linearly
onto `[1/2, 1]`. -/
def NormalisableRange.mapTo01 (R : NormalisableRange) (x : ℚ) : ℚ :=
  if x ≤ R.center then ((x - R.rmin) / (R.center - R.rmin)) * (1 / 2)
  else 1 / 2 + ((x - R.center) / (R.rmax - R.center)) * (1 / 2)

/-- Modelled from the spec: piecewise-linear inverse of
`NormalisableRange.mapTo01`. -/
def NormalisableRange.mapFrom01 (R : NormalisableRange) (x : ℚ) : ℚ :=
  if x ≤ 1 / 2 then R.rmin + (x * 2) * (R.center - R.rmin)
  else R.center + ((x - 1 / 2) * 2) * (R.rmax - R.center)

/-- Translated from `KnobBaseThumb.tsx` line 10: `const angleMin = -145`. -/
def angleMin : ℚ := -145

/-- Translated from `KnobBaseThumb.tsx` line 11: `const angleMax = 145`. -/
def angleMax : ℚ := 145

/-- Translated from `KnobBaseThumb.tsx` line 12:
`const angle = mapFrom01Linear(value01, angleMin, angleMax)`. -/
def knobBaseThumbAngle (value01 : ℚ) : ℚ := mapFrom01Linear value01 angleMin angleMax

/-- Concrete configuration of the documentation example used by the spec's
worked scenario: range `[20, 20000]`, sensitivity `0.006`, default axis `y`,
linear curve, enabled. -/
def cfgScenario : KnobConfig :=
  ⟨20, 20000, 6 / 1000, none, Axis.y, false, false, mapTo01Default, mapFrom01Default⟩

/-- Concrete enabled configuration used by witnesses: range `[0, 10]`,
sensitivity `1/20`, default axis `y`, linear curve. -/
def cfgW1 : KnobConfig :=
  ⟨0, 10, 1 / 20, none, Axis.y, false, false, mapTo01Default, mapFrom01Default⟩

/-- Concrete disabled configuration used by witnesses: as `cfgW1` but disabled
and with the tab-inclusion flag set. -/
def cfgW2 : KnobConfig :=
  ⟨0, 10, 1 / 20, none, Axis.y, true, true, mapTo01Default, mapFrom01Default⟩

/-- Helper: clamping to `[lo, hi]` with `lo ≤ hi` lands in `[lo, hi]`. -/
theorem clamp_mem (x lo hi : ℚ) (h : lo ≤ hi) :
    lo ≤ clamp x lo hi ∧ clamp x lo hi ≤ hi :=
  ⟨le_max_left lo (min hi x), max_le h (min_le_left hi x)⟩

/-- C1: for every enabled drag frame with `valueMin < valueMax`, the value
reported to the owner equals
`clamp(mapFrom01(clamp01(mapTo01(raw, min, max) + diff01), min, max), min, max)`
where `diff01 = dx * sensitivity - dy * sensitivity` restricted to the
configured axis (`x` only, `y` only, or both summed) and the vertical
component inverted. -/
theorem C1_drag_frame_matches_spec (cfg : KnobConfig) (valueRaw dx dy : ℚ)
    (hrange : cfg.valueMin < cfg.valueMax) (hd : cfg.disabled = false) :
    knobReportedValue cfg valueRaw dx dy = some (specReportedValue cfg valueRaw dx dy) := by
  unfold knobReportedValue specReportedValue dragFrame specDiff01 lockedDelta
  rw [hd]
  simp only [Bool.false_eq_true, if_false]
  cases h : getDragAxis cfg.orientation cfg.axis with
  | none => ring_nf
  | some a => cases a <;> ring_nf

/-- C1 witness: the theorem instantiated at a concrete enabled configuration. -/
theorem C1_drag_frame_matches_spec_witness :
    ((0 : ℚ) < 10 ∧ cfgW1.disabled = false) ∧
    knobReportedValue cfgW1 5 2 3 = some (specReportedValue cfgW1 5 2 3) :=
  ⟨⟨by norm_num, rfl⟩, C1_drag_frame_matches_spec cfgW1 5 2 3 (by norm_num [cfgW1]) rfl⟩

/-- C2: a disabled control reports no value change on any drag frame and its
`tabIndex` is `-1` regardless of the `includeIntoTabOrder` flag. -/
theorem C2_disabled_inert (cfg : KnobConfig) (roundFn : ℚ → ℚ) (dispFn : ℚ → String)
    (valueRaw dx dy : ℚ) (hd : cfg.disabled = true) :
    knobReportedValue cfg valueRaw dx dy = none ∧
    (knobRender cfg roundFn dispFn valueRaw).tabIndex = -1 := by
  constructor
  · simp [knobReportedValue, hd]
  · simp [knobRender, getTabIndex, hd]

/-- C2 witness: a concrete disabled configuration with the tab-inclusion flag
set still reports nothing and has `tabIndex = -1`. -/
theorem C2_disabled_inert_witness :
    cfgW2.disabled = true ∧
    knobReportedValue cfgW2 5 2 3 = none ∧
    (knobRender cfgW2 id (fun _ => "") 5).tabIndex = -1 :=
  ⟨rfl, C2_disabled_inert cfgW2 id (fun _ => "") 5 2 3 rfl⟩

/-- C3: the legacy `orientation` prop takes precedence over `axis`: the drag
axis is `x` for `horizontal` and `y` for `vertical` regardless of `axis`, and
the aria orientation equals the `orientation` prop; when `orientation` is
absent and `axis` is `xy`, the aria orientation is `undefined` and the drag
axis is unlocked. -/
theorem C3_axis_orientation_resolution (o : Orientation) (axis : Axis) :
    getDragAxis (some o) axis =
      (if o = Orientation.horizontal then some DragAxis.x else some DragAxis.y) ∧
    getAriaOrientation (some o) axis = some o ∧
    getDragAxis none Axis.xy = none ∧
    getAriaOrientation none Axis.xy = none := by
  refine ⟨?_, rfl, rfl, rfl⟩
  cases o <;> rfl

/-- C4: round-trip law for the default linear curve: for every raw value in
`[lo, hi]` with `lo < hi`, mapping to the normalized position and back gives
the raw value exactly. -/
theorem C4_linear_round_trip (lo hi r : ℚ) (hlt : lo < hi) (h1 : lo ≤ r) (h2 : r ≤ hi) :
    mapFrom01Default (mapTo01Default r lo hi) lo hi = r := by
  have hne : hi - lo ≠ 0 := sub_ne_zero.mpr hlt.ne'
  unfold mapFrom01Default mapTo01Default mapFrom01Linear mapTo01Linear
  field_simp

/-- C4 witness: the round trip at `lo = 0`, `hi = 2`, `r = 1`. -/
theorem C4_linear_round_trip_witness :
    ((0 : ℚ) < 2 ∧ (0 : ℚ) ≤ 1 ∧ (1 : ℚ) ≤ 2) ∧
    mapFrom01Default (mapTo01Default 1 0 2) 0 2 = 1 :=
  ⟨⟨by norm_num, by norm_num, by norm_num⟩,
   C4_linear_round_trip 0 2 1 (by norm_num) (by norm_num) (by norm_num)⟩

/-- C5: range invariant of the drag step: every reported value lies in
`[valueMin, valueMax]`; moreover the clamped position update does not
underflow at `0` for a negative delta nor overflow at `1` for a positive
delta. -/
theorem C5_range_invariant (cfg : KnobConfig) (valueRaw dx dy v d1 d2 : ℚ)
    (hle : cfg.valueMin ≤ cfg.valueMax)
    (hv : knobReportedValue cfg valueRaw dx dy = some v)
    (hd1 : d1 < 0) (hd2 : 0 < d2) :
    (cfg.valueMin ≤ v ∧ v ≤ cfg.valueMax) ∧
    clamp01 (0 + d1) = 0 ∧ clamp01 (1 + d2) = 1 := by
  refine ⟨?_, ?_, ?_⟩
  · unfold knobReportedValue at hv
    by_cases hdis : cfg.disabled = true
    · simp [hdis] at hv
    · rw [Bool.not_eq_true] at hdis
      rw [hdis] at hv
      simp only [Bool.false_eq_true, if_false, Option.some.injEq] at hv
      subst hv
      exact clamp_mem _ _ _ hle
  · unfold clamp01 clamp
    rw [min_eq_right (by linarith), max_eq_left (by linarith)]
  · unfold clamp01 clamp
    rw [min_eq_left (by linarith), max_eq_right (by linarith)]

/-- C5 witness: the invariant at a concrete enabled configuration and frame. -/
theorem C5_range_invariant_witness :
    ((0 : ℚ) ≤ 10 ∧ knobReportedValue cfgW1 5 2 3 = some (7 / 2) ∧
      (-1 : ℚ) < 0 ∧ (0 : ℚ) < 1) ∧
    ((0 : ℚ) ≤ 7 / 2 ∧ (7 / 2 : ℚ) ≤ 10) ∧
    clamp01 (0 + -1) = 0 ∧ clamp01 (1 + 1) = 1 :=
  ⟨⟨by norm_num, by norm_num [cfgW1, knobReportedValue, dragFrame, lockedDelta,
      getDragAxis, clamp01, clamp, mapTo01Default, mapFrom01Default,
      mapTo01Linear, mapFrom01Linear], by norm_num, by norm_num⟩,
   C5_range_invariant cfgW1 5 2 3 (7 / 2) (-1) 1 (by norm_num [cfgW1])
     (by norm_num [cfgW1, knobReportedValue, dragFrame, lockedDelta,
       getDragAxis, clamp01, clamp, mapTo01Default, mapFrom01Default,
       mapTo01Linear, mapFrom01Linear])
     (by norm_num) (by norm_num)⟩

/-- C6: boundary values of the linear normalizer: for every range with
`lo < hi`, `mapTo01Default lo lo hi = 0` and `mapTo01Default hi lo hi = 1`,
and the general formula is `(r - lo) / (hi - lo)`. -/
theorem C6_linear_boundary (lo hi r : ℚ) (hlt : lo < hi) :
    mapTo01Default lo lo hi = 0 ∧ mapTo01Default hi lo hi = 1 ∧
    mapTo01Default r lo hi = (r - lo) / (hi - lo) := by
  have hne : hi - lo ≠ 0 := sub_ne_zero.mpr hlt.ne'
  refine ⟨?_, ?_, rfl⟩
  · show (lo - lo) / (hi - lo) = 0
    rw [sub_self, zero_div]
  · show (hi - lo) / (hi - lo) = 1
    exact div_self hne

/-- C6 witness: the boundary values at `lo = 0`, `hi = 1`, `r = 1/2`. -/
theorem C6_linear_boundary_witness :
    (0 : ℚ) < 1 ∧
    (mapTo01Default 0 0 1 = 0 ∧ mapTo01Default 1 0 1 = 1 ∧
      mapTo01Default (1 / 2) 0 1 = (1 / 2 - 0) / (1 - 0)) :=
  ⟨by norm_num, C6_linear_boundary 0 1 (1 / 2) (by norm_num)⟩

/-- C7: worked drag scenario: on range `[20, 20000]` with the linear curve the
raw value `440` normalizes to `(440 - 20) / (20000 - 20) ≈ 0.0210`; with
sensitivity `0.006`, axis `y` and frame delta `(dx, dy) = (0, -10)` the delta
contribution is `-(-10) * 0.006 = 0.06`, the new normalized position is
`≈ 0.081`, and the reported raw value (`1638.8`) is strictly greater than
`440`. -/
theorem C7_worked_drag_scenario :
    mapTo01Default 440 20 20000 = (440 - 20) / (20000 - 20) ∧
    |mapTo01Default 440 20 20000 - 21 / 1000| < 1 / 1000 ∧
    specDiff01 (getDragAxis none Axis.y) (6 / 1000) 0 (-10) = 6 / 100 ∧
    |clamp01 (mapTo01Default 440 20 20000 + 6 / 100) - 81 / 1000| < 1 / 1000 ∧
    knobReportedValue cfgScenario 440 0 (-10) = some (8194 / 5) ∧
    (440 : ℚ) < 8194 / 5 := by
  norm_num [cfgScenario, mapTo01Default, mapTo01Linear, mapFrom01Default,
    mapFrom01Linear, specDiff01, getDragAxis, knobReportedValue, dragFrame,
    lockedDelta, clamp01, clamp, min_def, max_def, abs_sub_lt_iff, abs_lt]

/-- C8: the center-parametrized curve maps `rmin` to `0`, the center to
exactly `1/2` and `rmax` to `1`; it is monotone on each of the two linear
segments and satisfies the round-trip law on the whole range. In particular
(witness) center `1000` on `[20, 20000]` normalizes to `1/2`. -/
theorem C8_normalisable_center_curve (R : NormalisableRange)
    (h1 : R.rmin < R.center) (h2 : R.center < R.rmax) :
    R.mapTo01 R.rmin = 0 ∧ R.mapTo01 R.center = 1 / 2 ∧ R.mapTo01 R.rmax = 1 ∧
    (∀ a b, a ≤ b → b ≤ R.center → R.mapTo01 a ≤ R.mapTo01 b) ∧
    (∀ a b, R.center ≤ a → a ≤ b → R.mapTo01 a ≤ R.mapTo01 b) ∧
    (∀ r, R.rmin ≤ r → r ≤ R.rmax → R.mapFrom01 (R.mapTo01 r) = r) := by
  have hcm : (0 : ℚ) < R.center - R.rmin := sub_pos.mpr h1
  have hMc : (0 : ℚ) < R.rmax - R.center := sub_pos.mpr h2
  refine ⟨?_, ?_, ?_, ?_, ?_, ?_⟩
  · unfold NormalisableRange.mapTo01
    rw [if_pos h1.le, sub_self, zero_div, zero_mul]
  · unfold NormalisableRange.mapTo01
    rw [if_pos le_rfl, div_self hcm.ne', one_mul]
  · unfold NormalisableRange.mapTo01
    rw [if_neg (not_le.mpr h2), div_self hMc.ne', one_mul]
    norm_num
  · intro a b hab hbc
    have hac : a ≤ R.center := hab.trans hbc
    unfold NormalisableRange.mapTo01
    rw [if_pos hac, if_pos hbc]
    exact mul_le_mul_of_nonneg_right
      ((div_le_div_iff_of_pos_right hcm).mpr (by linarith)) (by norm_num)
  · intro a b hca hab
    by_cases hbc : b ≤ R.center
    · have ha : a = R.center := le_antisymm (hab.trans hbc) hca
      have hb : b = R.center := le_antisymm hbc (hca.trans hab)
      rw [ha, hb]
    · unfold NormalisableRange.mapTo01
      rw [if_neg hbc]
      by_cases hac : a ≤ R.center
      · have ha : a = R.center := le_antisymm hac hca
        rw [if_pos hac, ha, div_self hcm.ne', one_mul]
        have hq : 0 ≤ (b - R.center) / (R.rmax - R.center) :=
          div_nonneg (by linarith [not_le.mp hbc]) hMc.le
        linarith
      · rw [if_neg hac]
        have := mul_le_mul_of_nonneg_right
          ((div_le_div_iff_of_pos_right hMc).mpr (by linarith : a - R.center ≤ b - R.center))
          (by norm_num : (0 : ℚ) ≤ 1 / 2)
        linarith
  · intro r hmr hrM
    by_cases hrc : r ≤ R.center
    · unfold NormalisableRange.mapTo01 NormalisableRange.mapFrom01
      rw [if_pos hrc]
      have h01 : (r - R.rmin) / (R.center - R.rmin) ≤ 1 :=
        (div_le_one hcm).mpr (by linarith)
      rw [if_pos (by linarith : ((r - R.rmin) / (R.center - R.rmin)) * (1 / 2) ≤ 1 / 2)]
      field_simp
      ring
    · unfold NormalisableRange.mapTo01 NormalisableRange.mapFrom01
      rw [if_neg hrc]
      have hq : 0 < (r - R.center) / (R.rmax - R.center) :=
        div_pos (by linarith [not_le.mp hrc]) hMc
      rw [if_neg (by push_neg; linarith :
        ¬ 1 / 2 + ((r - R.center) / (R.rmax - R.center)) * (1 / 2) ≤ 1 / 2)]
      field_simp
      ring

/-- C8 witness: the curve with center `1000` on `[20, 20000]` at its three
anchor points. -/
theorem C8_normalisable_center_curve_witness :
    ((20 : ℚ) < 1000 ∧ (1000 : ℚ) < 20000) ∧
    NormalisableRange.mapTo01 ⟨20, 20000, 1000⟩ 20 = 0 ∧
    NormalisableRange.mapTo01 ⟨20, 20000, 1000⟩ 1000 = 1 / 2 ∧
    NormalisableRange.mapTo01 ⟨20, 20000, 1000⟩ 20000 = 1 :=
  ⟨⟨by norm_num, by norm_num⟩,
   (C8_normalisable_center_curve ⟨20, 20000, 1000⟩ (by norm_num) (by norm_num)).1,
   (C8_normalisable_center_curve ⟨20, 20000, 1000⟩ (by norm_num) (by norm_num)).2.1,
   (C8_normalisable_center_curve ⟨20, 20000, 1000⟩ (by norm_num) (by norm_num)).2.2.1⟩

/-- C9: the default visual thumb rotation equals
`angleMin + pos01 * (angleMax - angleMin)` with `angleMin = -145` and
`angleMax = 145`, and for `pos01` in `[0, 1]` the angle lies in
`[-145, 145]`. -/
theorem C9_thumb_rotation (p : ℚ) (h0 : 0 ≤ p) (h1 : p ≤ 1) :
    knobBaseThumbAngle p = angleMin + p * (angleMax - angleMin) ∧
    -145 ≤ knobBaseThumbAngle p ∧ knobBaseThumbAngle p ≤ 145 := by
  unfold knobBaseThumbAngle mapFrom01Linear angleMin angleMax
  refine ⟨rfl, ?_, ?_⟩ <;> nlinarith

/-- C9 witness: the rotation at the middle position `1/2` is `0` degrees,
inside `[-145, 145]`. -/
theorem C9_thumb_rotation_witness :
    ((0 : ℚ) ≤ 1 / 2 ∧ (1 / 2 : ℚ) ≤ 1) ∧
    (knobBaseThumbAngle (1 / 2) = angleMin + (1 / 2) * (angleMax - angleMin) ∧
      -145 ≤ knobBaseThumbAngle (1 / 2) ∧ knobBaseThumbAngle (1 / 2) ≤ 145) :=
  ⟨⟨by norm_num, by norm_num⟩, C9_thumb_rotation (1 / 2) (by norm_num) (by norm_num)⟩

/-- C10: rounding never feeds back into the value pipeline: `aria-valuenow`
is the rounding function applied to the raw value, `aria-valuetext` is the
display function applied to the unrounded raw value, and the value reported
through `onValueRawChange` is independent of the rounding function. -/
theorem C10_rounding_no_feedback (cfg : KnobConfig) (roundFn roundFn2 : ℚ → ℚ)
    (dispFn : ℚ → String) (valueRaw dx dy : ℚ) :
    (knobHeadless cfg roundFn dispFn valueRaw dx dy).rendered.ariaValueNow =
      roundFn valueRaw ∧
    (knobHeadless cfg roundFn dispFn valueRaw dx dy).rendered.ariaValueText =
      dispFn valueRaw ∧
    (knobHeadless cfg roundFn dispFn valueRaw dx dy).reported =
      (knobHeadless cfg roundFn2 dispFn valueRaw dx dy).reported :=
  ⟨rfl, rfl, rfl⟩

end RKH
